import Mathlib

/-!
Shallow embedding of the melonJS rendering backend core:
`src/video/canvas/canvas_renderer.js` (the canvas `CanvasRenderer`) and the
`GLShader` base class.  Canvas 2D context calls are modelled as an explicit
trace of operations (`CanvasOp`); renderer bookkeeping fields are an explicit
state record (`RState`).  Numbers are rationals; the JS `~~x` / `x|0`
conversions (ToInt32) are modelled exactly.
-/

namespace Melon

/-- JS truncation toward zero of a rational (the integral part of ToInt32). -/
def jsTrunc (q : ℚ) : ℤ :=
  if 0 ≤ q then ⌊q⌋ else -⌊-q⌋

/-- JS ToInt32, as performed by `~~x` and `x | 0`: truncate toward zero, then
wrap into the signed 32-bit range. -/
def toInt32 (q : ℚ) : ℤ :=
  (jsTrunc q + 2 ^ 31) % 2 ^ 32 - 2 ^ 31

/-- a fill style of the 2d context: either a CSS color string or a pattern
created by `createPattern` (image id plus repeat mode). -/
inductive FillStyle where
  | color (css : String)
  | pattern (image : Nat) (repeatMode : String)
deriving DecidableEq

/-- an image element, of which the renderer reads `width` and `height`. -/
structure Image where
  width : ℚ
  height : ℚ
deriving DecidableEq

/-- the source actually handed to `context.drawImage`: either the original
image or a tinted variant obtained from the texture cache
(`this.cache.tint(image, this.currentTint.toRGB())`). -/
inductive ImageSrc where
  | plain (image : Image)
  | tinted (image : Image) (r g b : ℚ)
deriving DecidableEq

/-- one call into the underlying 2d drawing surface (`backBufferContext2D`).
Each constructor corresponds to one context method call or property
assignment issued by the renderer. -/
inductive CanvasOp where
  | save
  | restore
  | beginPath
  | closePath
  | rect (x y w h : ℚ)
  | roundRect (x y w h r : ℚ)
  | moveTo (x y : ℚ)
  | lineTo (x y : ℚ)
  | bezierCurveTo (cp1x cp1y cp2x cp2y x y : ℚ)
  | arc (x y radius startAngle endAngle : ℚ) (anticlockwise : Bool)
  | clip
  | fill
  | stroke
  | fillRect (x y w h : ℚ)
  | strokeRect (x y w h : ℚ)
  | translate (x y : ℚ)
  | transform (a b c d e f : ℚ)
  | setTransform (a b c d e f : ℚ)
  | drawImage (source : ImageSrc) (sx sy sw sh dx dy dw dh : ℚ)
  | setFillStyle (style : FillStyle)
  | setCompositeOp (op : String)
deriving DecidableEq

/-- renderer bookkeeping state: the fields of `CanvasRenderer` (and of the
parent `Renderer`) that the modelled methods read or write, plus the cached
properties of the back-buffer context. -/
structure RState where
  subPixel : Bool
  doubleBuffering : Bool
  transparent : Bool
  canvasWidth : ℚ
  canvasHeight : ℚ
  globalAlpha : ℚ
  maskLevel : Nat
  scissorX : ℚ
  scissorY : ℚ
  scissorW : ℚ
  scissorH : ℚ
  currentBlendMode : String
  backCompositeOp : String
  frontCompositeOp : String
  fillStyle : FillStyle
  tintR : ℚ
  tintG : ℚ
  tintB : ℚ
deriving DecidableEq

/-- `getGlobalAlpha()`: reads `backBufferContext2D.globalAlpha`. -/
def getGlobalAlpha (s : RState) : ℚ :=
  s.globalAlpha

/-- `translate(x, y)`: context translation, snapping the components through
ToInt32 (`~~`) when sub-pixel rendering is disabled. -/
def translateOps (x y : ℚ) (s : RState) : List CanvasOp :=
  if s.subPixel = false then
    [CanvasOp.translate (toInt32 x) (toInt32 y)]
  else
    [CanvasOp.translate x y]

/-- a 3x3 matrix value object as consumed through `toArray()`; the renderer
reads entries 0, 1, 3, 4, 6, 7. -/
structure Matrix2d where
  m0 : ℚ
  m1 : ℚ
  m2 : ℚ
  m3 : ℚ
  m4 : ℚ
  m5 : ℚ
  m6 : ℚ
  m7 : ℚ
  m8 : ℚ
deriving DecidableEq

/-- `transform(mat2d)`: multiplies the matrix into the context transform,
passing the translation components e, f through `|0` when sub-pixel
rendering is disabled. -/
def transformOps (m : Matrix2d) (s : RState) : List CanvasOp :=
  let a := m.m0
  let b := m.m1
  let c := m.m3
  let d := m.m4
  let e := m.m6
  let f := m.m7
  if s.subPixel = false then
    [CanvasOp.transform a b c d (toInt32 e) (toInt32 f)]
  else
    [CanvasOp.transform a b c d e f]

/-- a 2d point value object with `x`/`y` fields. -/
structure Vec2 where
  x : ℚ
  y : ℚ
deriving DecidableEq

/-- a polygon as consumed by `strokePolygon`: a position and a non-empty
list of points (`points[0]` is `p0`, the remaining points are `rest`). -/
structure Poly where
  pos : Vec2
  p0 : Vec2
  rest : List Vec2
deriving DecidableEq

/-- the Bezier magic constant `0.551784` used for the 4-segment ellipse
approximation. -/
def magicK : ℚ := 551784 / 1000000

/-- the path operations shared by `strokeEllipse` and the `Ellipse` branch of
`setMask`: a `moveTo` to the top of the ellipse followed by four
`bezierCurveTo` segments with the `0.551784` control-point offsets. -/
def ellipsePathOps (x y hw hh : ℚ) : List CanvasOp :=
  let lx := x - hw
  let rx := x + hw
  let ty := y - hh
  let byv := y + hh
  let xmagic := hw * magicK
  let ymagic := hh * magicK
  let xmin := x - xmagic
  let xmax := x + xmagic
  let ymin := y - ymagic
  let ymax := y + ymagic
  [CanvasOp.moveTo x ty,
   CanvasOp.bezierCurveTo xmax ty rx ymin rx y,
   CanvasOp.bezierCurveTo rx ymax xmax byv x byv,
   CanvasOp.bezierCurveTo xmin byv lx ymax lx y,
   CanvasOp.bezierCurveTo lx ymin xmin ty x ty]

/-- the three call arities of `drawImage`, disambiguated in the source by
which trailing arguments are `undefined`: position only, position plus
destination size, or full source sub-rectangle plus destination rectangle. -/
inductive DrawImageArgs where
  | pos (dx dy : ℚ)
  | scaled (dx dy dw dh : ℚ)
  | sub (sx sy sw sh dx dy dw dh : ℚ)
deriving DecidableEq

/-- `drawImage`: alpha fast path, arity resolution, sub-pixel clamping of the
destination position via `~~`, tint substitution, then one `drawImage` call
on the context. -/
def drawImage (image : Image) (args : DrawImageArgs) (s : RState) : List CanvasOp :=
  if getGlobalAlpha s < 1 / 255 then
    []
  else
    let resolved : ℚ × ℚ × ℚ × ℚ × ℚ × ℚ × ℚ × ℚ :=
      match args with
      | DrawImageArgs.pos dx dy => (0, 0, image.width, image.height, dx, dy, image.width, image.height)
      | DrawImageArgs.scaled dx dy dw dh => (0, 0, image.width, image.height, dx, dy, dw, dh)
      | DrawImageArgs.sub sx sy sw sh dx dy dw dh => (sx, sy, sw, sh, dx, dy, dw, dh)
    match resolved with
    | (sx, sy, sw, sh, dx, dy, dw, dh) =>
      let dx2 : ℚ := if s.subPixel = false then (toInt32 dx : ℚ) else dx
      let dy2 : ℚ := if s.subPixel = false then (toInt32 dy : ℚ) else dy
      let source : ImageSrc :=
        if s.tintR ≠ 1 ∨ s.tintG ≠ 1 ∨ s.tintB ≠ 1 then
          ImageSrc.tinted image s.tintR s.tintG s.tintB
        else
          ImageSrc.plain image
      [CanvasOp.drawImage source sx sy sw sh dx2 dy2 dw dh]

/-- `drawPattern`: alpha fast path, then set the fill style to the pattern,
fill the rectangle, and restore the previous fill style. -/
def drawPattern (pattern : FillStyle) (x y width height : ℚ) (s : RState) : List CanvasOp :=
  if getGlobalAlpha s < 1 / 255 then
    []
  else
    [CanvasOp.setFillStyle pattern,
     CanvasOp.fillRect x y width height,
     CanvasOp.setFillStyle s.fillStyle]

/-- `strokeArc`: alpha fast path, then translate to the center, trace a native
arc, paint (fill when `fill` is true, else stroke), and translate back. -/
def strokeArc (x y radius startAngle endAngle : ℚ) (antiClockwise fill : Bool) (s : RState) : List CanvasOp :=
  if getGlobalAlpha s < 1 / 255 then
    []
  else
    [CanvasOp.translate x y,
     CanvasOp.beginPath,
     CanvasOp.arc 0 0 radius startAngle endAngle (antiClockwise || false),
     (if fill = true then CanvasOp.fill else CanvasOp.stroke),
     CanvasOp.translate (-x) (-y)]

/-- `fillArc`: delegates to `strokeArc` with `fill = true`. -/
def fillArc (x y radius startAngle endAngle : ℚ) (antiClockwise : Bool) (s : RState) : List CanvasOp :=
  strokeArc x y radius startAngle endAngle (antiClockwise || false) true s

/-- `strokeEllipse`: alpha fast path, then the 4-Bezier ellipse path between
`beginPath` and the terminal paint, followed by `closePath`. -/
def strokeEllipse (x y w h : ℚ) (fill : Bool) (s : RState) : List CanvasOp :=
  if getGlobalAlpha s < 1 / 255 then
    []
  else
    CanvasOp.beginPath ::
      (ellipsePathOps x y w h ++
        [(if fill = true then CanvasOp.fill else CanvasOp.stroke), CanvasOp.closePath])

/-- `fillEllipse`: delegates to `strokeEllipse` with `fill = true`. -/
def fillEllipse (x y w h : ℚ) (s : RState) : List CanvasOp :=
  strokeEllipse x y w h true s

/-- `strokeLine`: alpha fast path, then begin a path, move to the start point,
line to the end point and stroke. -/
def strokeLine (startX startY endX endY : ℚ) (s : RState) : List CanvasOp :=
  if getGlobalAlpha s < 1 / 255 then
    []
  else
    [CanvasOp.beginPath,
     CanvasOp.moveTo startX startY,
     CanvasOp.lineTo endX endY,
     CanvasOp.stroke]

/-- `fillLine`: delegates to `strokeLine` (a line has no interior; the source
passes the same four coordinates straight through). -/
def fillLine (startX startY endX endY : ℚ) (s : RState) : List CanvasOp :=
  strokeLine startX startY endX endY s

/-- `strokePolygon`: alpha fast path, then a renderer-level translate to the
polygon position, a closed vertex trace, the terminal paint, `closePath`,
and the inverse renderer-level translate. -/
def strokePolygon (poly : Poly) (fill : Bool) (s : RState) : List CanvasOp :=
  if getGlobalAlpha s < 1 / 255 then
    []
  else
    translateOps poly.pos.x poly.pos.y s ++
      (CanvasOp.beginPath ::
        CanvasOp.moveTo poly.p0.x poly.p0.y ::
        (poly.rest.map (fun p => CanvasOp.lineTo p.x p.y) ++
          [CanvasOp.lineTo poly.p0.x poly.p0.y,
           (if fill = true then CanvasOp.fill else CanvasOp.stroke),
           CanvasOp.closePath])) ++
      translateOps (-poly.pos.x) (-poly.pos.y) s

/-- `fillPolygon`: delegates to `strokePolygon` with `fill = true`. -/
def fillPolygon (poly : Poly) (s : RState) : List CanvasOp :=
  strokePolygon poly true s

/-- `strokeRect`: alpha fast path, then a single `fillRect` or `strokeRect`
context call selected by the `fill` flag. -/
def strokeRect (x y width height : ℚ) (fill : Bool) (s : RState) : List CanvasOp :=
  if getGlobalAlpha s < 1 / 255 then
    []
  else
    [(if fill = true then CanvasOp.fillRect x y width height
      else CanvasOp.strokeRect x y width height)]

/-- `fillRect`: delegates to `strokeRect` with `fill = true`. -/
def fillRect (x y width height : ℚ) (s : RState) : List CanvasOp :=
  strokeRect x y width height true s

/-- `strokeRoundRect`: alpha fast path, then begin a path, trace a native
rounded rectangle, and paint. -/
def strokeRoundRect (x y width height radius : ℚ) (fill : Bool) (s : RState) : List CanvasOp :=
  if getGlobalAlpha s < 1 / 255 then
    []
  else
    [CanvasOp.beginPath,
     CanvasOp.roundRect x y width height radius,
     (if fill = true then CanvasOp.fill else CanvasOp.stroke)]

/-- `fillRoundRect`: delegates to `strokeRoundRect` with `fill = true`. -/
def fillRoundRect (x y width height radius : ℚ) (s : RState) : List CanvasOp :=
  strokeRoundRect x y width height radius true s

/-- `setBlendMode(mode)`: records `currentBlendMode`, maps the mode to the
composite operation of the back-buffer context through the source's switch
(the default branch sets `source-over` and re-records `normal`), and, when
double buffering and transparency are both enabled, forces the front
context's composite operation to `copy`.  When double buffering is off the
front context aliases the back context; the `frontCompositeOp` field is
meaningful only under double buffering, matching the guard. -/
def setBlendMode (mode : String) (s : RState) : RState :=
  let s0 := { s with currentBlendMode := mode }
  let s1 :=
    if mode = "screen" then
      { s0 with backCompositeOp := "screen" }
    else if mode = "lighter" ∨ mode = "additive" then
      { s0 with backCompositeOp := "lighter" }
    else if mode = "multiply" then
      { s0 with backCompositeOp := "multiply" }
    else
      { s0 with backCompositeOp := "source-over", currentBlendMode := "normal" }
  if s1.doubleBuffering = true ∧ s1.transparent = true then
    { s1 with frontCompositeOp := "copy" }
  else
    s1

/-- `clipRect(x, y, width, height)`: applies the clip-path construction
(`beginPath`/`rect`/`clip`) and caches the new scissor box only when the
requested box differs from the canvas size and from the cached scissor box;
otherwise it does nothing. -/
def clipRect (x y width height : ℚ) (s : RState) : RState × List CanvasOp :=
  if x ≠ 0 ∨ y ≠ 0 ∨ width ≠ s.canvasWidth ∨ height ≠ s.canvasHeight then
    if s.scissorX ≠ x ∨ s.scissorY ≠ y ∨ s.scissorW ≠ width ∨ s.scissorH ≠ height then
      ({ s with scissorX := x, scissorY := y, scissorW := width, scissorH := height },
       [CanvasOp.beginPath, CanvasOp.rect x y width height, CanvasOp.clip])
    else
      (s, [])
  else
    (s, [])

/-- a mask shape, one constructor per `instanceof` branch of `setMask`:
`RoundRect` first, then `Rect`/`Bounds`, then `Ellipse`, and otherwise an
arbitrary polygon.  Rectangle-like shapes are read through their `top`,
`left`, `width`, `height` (and `radius`) accessors; the others through
`pos`, `radiusV` and `points`. -/
inductive MaskShape where
  | roundRect (left top width height radius : ℚ)
  | rect (left top width height : ℚ)
  | ellipse (pos : Vec2) (radiusVx radiusVy : ℚ)
  | poly (pos : Vec2) (p0 : Vec2) (rest : List Vec2)
deriving DecidableEq

/-- the boundary trace emitted by the non-first branches of `setMask`.  The
source passes `mask.top` as the first (x) argument and `mask.left` as the
second (y) argument of `rect`/`roundRect`; ellipses use the shared 4-Bezier
path; polygons trace every point offset by the position. -/
def maskTraceOps : MaskShape → List CanvasOp
  | MaskShape.roundRect left top width height radius =>
      [CanvasOp.roundRect top left width height radius]
  | MaskShape.rect left top width height =>
      [CanvasOp.rect top left width height]
  | MaskShape.ellipse pos rvx rvy =>
      ellipsePathOps pos.x pos.y rvx rvy
  | MaskShape.poly pos p0 rest =>
      CanvasOp.moveTo (pos.x + p0.x) (pos.y + p0.y) ::
        rest.map (fun p => CanvasOp.lineTo (pos.x + p.x) (pos.y + p.y))

/-- `setMask(mask, invert)`: a single `if (maskLevel === 0) / else if ...`
chain — on the first push the context is saved and a fresh path begun, and
only the `else if` branches (taken when the nesting level is non-zero) trace
the shape; then the nesting level is incremented, and the path is either
closed and filled with `destination-atop` (invert) or clipped. -/
def setMask (mask : MaskShape) (invert : Bool) (s : RState) : RState × List CanvasOp :=
  let traced : List CanvasOp :=
    if s.maskLevel = 0 then
      [CanvasOp.save, CanvasOp.beginPath]
    else
      maskTraceOps mask
  let s1 := { s with maskLevel := s.maskLevel + 1 }
  if invert = true then
    ({ s1 with backCompositeOp := "destination-atop" },
     traced ++ [CanvasOp.closePath, CanvasOp.setCompositeOp "destination-atop", CanvasOp.fill])
  else
    (s1, traced ++ [CanvasOp.clip])

/-- `clearMask()`: when the nesting level is positive, reset it to 0 and
restore the context state saved by the first push; otherwise do nothing. -/
def clearMask (s : RState) : RState × List CanvasOp :=
  if s.maskLevel > 0 then
    ({ s with maskLevel := 0 }, [CanvasOp.restore])
  else
    (s, [])

/-- run a sequence of `setMask` pushes, threading the renderer state and
concatenating the emitted context operations. -/
def runMasks : List (MaskShape × Bool) → RState → RState × List CanvasOp
  | [], s => (s, [])
  | (m, inv) :: rest, s =>
      let r1 := setMask m inv s
      let r2 := runMasks rest r1.1
      (r2.1, r1.2 ++ r2.2)

/-- number of `save` calls in a context-operation trace. -/
def saveCount : List CanvasOp → Nat
  | [] => 0
  | CanvasOp.save :: rest => saveCount rest + 1
  | _ :: rest => saveCount rest

/-- number of `restore` calls in a context-operation trace. -/
def restoreCount : List CanvasOp → Nat
  | [] => 0
  | CanvasOp.restore :: rest => restoreCount rest + 1
  | _ :: rest => restoreCount rest

/-- number of `clip` calls (clip-path constructions) in a trace. -/
def clipCount : List CanvasOp → Nat
  | [] => 0
  | CanvasOp.clip :: rest => clipCount rest + 1
  | _ :: rest => clipCount rest

/-- a concrete renderer state: a 640x480 opaque single-buffered canvas with
sub-pixel rendering off, full-canvas scissor, white tint and alpha 1. -/
def sampleState : RState :=
  { subPixel := false
    doubleBuffering := false
    transparent := false
    canvasWidth := 640
    canvasHeight := 480
    globalAlpha := 1
    maskLevel := 0
    scissorX := 0
    scissorY := 0
    scissorW := 640
    scissorH := 480
    currentBlendMode := "normal"
    backCompositeOp := "source-over"
    frontCompositeOp := "source-over"
    fillStyle := FillStyle.color "#000000"
    tintR := 1
    tintG := 1
    tintB := 1 }

/-- a value passed to `setUniform`: a number, a flat array-like value with no
`toArray` method (for example a `Float32Array`), or an object exposing a
`toArray()` serialization returning its flat numeric form. -/
inductive UniValue where
  | num (v : ℚ)
  | flat (vs : List ℚ)
  | arrObj (vs : List ℚ)
deriving DecidableEq

/-- the conversion applied by `setUniform` before storing: an object with a
`toArray` method is replaced by `value.toArray()`; anything else is stored
unchanged. -/
def flattenValue : UniValue → UniValue
  | UniValue.arrObj vs => UniValue.flat vs
  | v => v

/-- a JS exception observable from `getAttribLocation`/`setUniform`: the
TypeError raised by reading a property of `null`, or the explicit
unknown-uniform `Error` thrown by `setUniform`. -/
inductive JSError where
  | nullAccess
  | unknownUniform (name : String)
deriving DecidableEq

/-- the `GLShader` object state: the attribute-location and uniform tables
(`null`, modelled as `none`, after `destroy()`), the processed sources, and
whether the GPU program handle has been deleted. -/
structure GLShader where
  attributes : Option (List (String × Nat))
  uniforms : Option (List (String × UniValue))
  vertex : Option String
  fragment : Option String
  programDeleted : Bool
deriving DecidableEq

/-- Modelled from the spec: `extractAttributes` and `extractUniforms`
(`src/video/webgl/utils`) are not under `src/`; per the spec, attribute
introspection yields a name-to-location table of non-negative GL locations
(here `Nat`) and uniform introspection yields a name-to-default-value table,
both built once at construction. -/
def compileShader (attrs : List (String × Nat)) (unis : List (String × UniValue))
    (vsrc fsrc : String) : GLShader :=
  { attributes := some attrs
    uniforms := some unis
    vertex := some vsrc
    fragment := some fsrc
    programDeleted := false }

/-- `getAttribLocation(name)`: reads `this.attributes[name]` (a TypeError when
the table is `null`), returning the stored location when defined and `-1`
otherwise. -/
def getAttribLocation (sh : GLShader) (name : String) : Except JSError ℤ :=
  match sh.attributes with
  | none => Except.error JSError.nullAccess
  | some attrs =>
    match List.lookup name attrs with
    | some attr => Except.ok (attr : ℤ)
    | none => Except.ok (-1)

/-- in-place update of the uniform table entry for `name`. -/
def storeUniform : List (String × UniValue) → String → UniValue → List (String × UniValue)
  | [], _, _ => []
  | (k, v) :: rest, name, value =>
      if k = name then
        (k, flattenValue value) :: rest
      else
        (k, v) :: storeUniform rest name value

/-- `setUniform(name, value)`: reads `this.uniforms[name]` (a TypeError when
the table is `null`); when the name is present the flattened value is stored,
otherwise the undefined-uniform `Error` is thrown. -/
def setUniform (sh : GLShader) (name : String) (value : UniValue) : Except JSError GLShader :=
  match sh.uniforms with
  | none => Except.error JSError.nullAccess
  | some us =>
    match List.lookup name us with
    | some _ => Except.ok { sh with uniforms := some (storeUniform us name value) }
    | none => Except.error (JSError.unknownUniform name)

/-- `destroy()`: nulls the uniform and attribute tables, deletes the GPU
program, and nulls the stored sources. -/
def destroy (sh : GLShader) : GLShader :=
  { sh with
    uniforms := none
    attributes := none
    programDeleted := true
    vertex := none
    fragment := none }

/-- a concrete compiled shader with one attribute `aPos` at location 0 and one
uniform `uColor`. -/
def sampleShader : GLShader :=
  compileShader [("aPos", 0)] [("uColor", UniValue.flat [1, 1, 1, 1])] "vsrc" "fsrc"

/-- a concrete renderer state whose global alpha is below the 1/255
threshold. -/
def clearAlphaState : RState :=
  { sampleState with globalAlpha := 0 }

/-- a concrete two-push mask sequence: a rectangle clip followed by an
inverted ellipse. -/
def demoPushes : List (MaskShape × Bool) :=
  [(MaskShape.rect 0 0 10 10, false), (MaskShape.ellipse ⟨5, 5⟩ 2 3, true)]

lemma saveCount_append (a b : List CanvasOp) :
    saveCount (a ++ b) = saveCount a + saveCount b := by
  induction a with
  | nil => simp [saveCount]
  | cons op rest ih => cases op <;> simp [saveCount, ih] <;> omega

lemma restoreCount_append (a b : List CanvasOp) :
    restoreCount (a ++ b) = restoreCount a + restoreCount b := by
  induction a with
  | nil => simp [restoreCount]
  | cons op rest ih => cases op <;> simp [restoreCount, ih] <;> omega

lemma saveCount_map_lineTo (a b : ℚ) (l : List Vec2) :
    saveCount (l.map (fun p => CanvasOp.lineTo (a + p.x) (b + p.y))) = 0 := by
  induction l with
  | nil => simp [saveCount]
  | cons p rest ih => simp [saveCount, ih]

lemma restoreCount_map_lineTo (a b : ℚ) (l : List Vec2) :
    restoreCount (l.map (fun p => CanvasOp.lineTo (a + p.x) (b + p.y))) = 0 := by
  induction l with
  | nil => simp [restoreCount]
  | cons p rest ih => simp [restoreCount, ih]

lemma saveCount_maskTraceOps (m : MaskShape) : saveCount (maskTraceOps m) = 0 := by
  cases m <;> simp [maskTraceOps, ellipsePathOps, saveCount, saveCount_map_lineTo]

lemma restoreCount_maskTraceOps (m : MaskShape) : restoreCount (maskTraceOps m) = 0 := by
  cases m <;> simp [maskTraceOps, ellipsePathOps, restoreCount, restoreCount_map_lineTo]

lemma setMask_maskLevel (m : MaskShape) (inv : Bool) (s : RState) :
    (setMask m inv s).1.maskLevel = s.maskLevel + 1 := by
  cases inv <;> simp [setMask]

lemma saveCount_setMask (m : MaskShape) (inv : Bool) (s : RState) :
    saveCount (setMask m inv s).2 = if s.maskLevel = 0 then 1 else 0 := by
  cases inv <;>
    by_cases h : s.maskLevel = 0 <;>
      simp [setMask, h, saveCount_append, saveCount, saveCount_maskTraceOps]

lemma restoreCount_setMask (m : MaskShape) (inv : Bool) (s : RState) :
    restoreCount (setMask m inv s).2 = 0 := by
  cases inv <;>
    by_cases h : s.maskLevel = 0 <;>
      simp [setMask, h, restoreCount_append, restoreCount, restoreCount_maskTraceOps]

lemma runMasks_pos (pushes : List (MaskShape × Bool)) (s : RState) (h : 0 < s.maskLevel) :
    saveCount (runMasks pushes s).2 = 0 ∧ restoreCount (runMasks pushes s).2 = 0 ∧
      0 < (runMasks pushes s).1.maskLevel := by
  induction pushes generalizing s with
  | nil => simpa [runMasks, saveCount, restoreCount] using h
  | cons p rest ih =>
    obtain ⟨m, inv⟩ := p
    have hs := saveCount_setMask m inv s
    have hr := restoreCount_setMask m inv s
    have hl := setMask_maskLevel m inv s
    have hpos : 0 < (setMask m inv s).1.maskLevel := by omega
    have hrec := ih (setMask m inv s).1 hpos
    have hz : ¬ s.maskLevel = 0 := by omega
    simp only [runMasks, saveCount_append, restoreCount_append]
    rw [hs, if_neg hz]
    refine ⟨by omega, by omega, hrec.2.2⟩

lemma translateOps_ne_nil (x y : ℚ) (s : RState) : translateOps x y s ≠ [] := by
  by_cases h : s.subPixel = false <;> simp [translateOps, h]

/-- Claim C1 (code bug in `setMask`): the `if (maskLevel === 0)` block is
chained by `else if` to the shape-tracing branches, so the first push saves
the context and begins a path but traces no boundary at all, and then clips
to the empty path; only pushes at nesting level above 0 trace, and the
`Rect`/`RoundRect` branches pass `mask.top` as the x argument and
`mask.left` as the y argument of `rect`/`roundRect` (swapped).  Evaluated
here on a
rectangle with `left = 3`, `top = 7`: the first push emits only
save/beginPath/clip, while a push at level 1 emits `rect 7 3 30 40`.  The
nesting-level increment itself does happen on every push. -/
theorem setMask_first_push_traces_nothing :
    (setMask (MaskShape.rect 3 7 30 40) false sampleState).2 =
      [CanvasOp.save, CanvasOp.beginPath, CanvasOp.clip] ∧
    (setMask (MaskShape.rect 3 7 30 40) false sampleState).1.maskLevel = 1 ∧
    (setMask (MaskShape.rect 3 7 30 40) false { sampleState with maskLevel := 1 }).2 =
      [CanvasOp.rect 7 3 30 40, CanvasOp.clip] := by
  refine ⟨?_, ?_, ?_⟩ <;> norm_num [setMask, sampleState, maskTraceOps]

/-- Claim C6: every `fillX` drawing primitive produces exactly the trace of
its `strokeX` counterpart with `fill = true`; `fillLine` delegates to
`strokeLine` unchanged (a stroke-only primitive, so the extra `fill`
argument of the claim is ignored by the source). -/
theorem fill_is_stroke_with_fill_true (s : RState)
    (x y w h radius startAngle endAngle x2 y2 : ℚ) (antiClockwise : Bool) (poly : Poly) :
    fillRect x y w h s = strokeRect x y w h true s ∧
    fillEllipse x y w h s = strokeEllipse x y w h true s ∧
    fillArc x y radius startAngle endAngle antiClockwise s =
      strokeArc x y radius startAngle endAngle antiClockwise true s ∧
    fillPolygon poly s = strokePolygon poly true s ∧
    fillRoundRect x y w h radius s = strokeRoundRect x y w h radius true s ∧
    fillLine x y x2 y2 s = strokeLine x y x2 y2 s := by
  refine ⟨rfl, rfl, ?_, rfl, rfl, rfl⟩
  simp [fillArc, strokeArc, Bool.or_false]

/-- Claim C7: `setBlendMode` maps normal to source-over, multiply to
multiply, additive and lighter to lighter, screen to screen, and on any
unrecognized mode string is identical, as a state transformer, to
`setBlendMode "normal"` (source-over, recorded blend mode `normal`); being a
total function it never raises. -/
theorem setBlendMode_total_fallback (s : RState) (mode : String) :
    (setBlendMode "normal" s).backCompositeOp = "source-over" ∧
    (setBlendMode "normal" s).currentBlendMode = "normal" ∧
    (setBlendMode "multiply" s).backCompositeOp = "multiply" ∧
    (setBlendMode "additive" s).backCompositeOp = "lighter" ∧
    (setBlendMode "lighter" s).backCompositeOp = "lighter" ∧
    (setBlendMode "screen" s).backCompositeOp = "screen" ∧
    (mode ≠ "normal" → mode ≠ "multiply" → mode ≠ "additive" → mode ≠ "lighter" →
      mode ≠ "screen" → setBlendMode mode s = setBlendMode "normal" s) := by
  refine ⟨?_, ?_, ?_, ?_, ?_, ?_, fun h1 h2 h3 h4 h5 => ?_⟩
  · simp only [setBlendMode, String.reduceEq, reduceIte, or_self, or_false, false_or,
      apply_ite RState.backCompositeOp, ite_self]
  · simp only [setBlendMode, String.reduceEq, reduceIte, or_self, or_false, false_or,
      apply_ite RState.currentBlendMode, ite_self]
  · simp only [setBlendMode, String.reduceEq, reduceIte, or_self, or_false, false_or,
      apply_ite RState.backCompositeOp, ite_self]
  · simp only [setBlendMode, String.reduceEq, reduceIte, or_self, or_false, false_or,
      apply_ite RState.backCompositeOp, ite_self]
  · simp only [setBlendMode, String.reduceEq, reduceIte, or_self, or_false, false_or,
      apply_ite RState.backCompositeOp, ite_self]
  · simp only [setBlendMode, String.reduceEq, reduceIte, or_self, or_false, false_or,
      apply_ite RState.backCompositeOp, ite_self]
  · simp only [setBlendMode, String.reduceEq, reduceIte, h2, h3, h4, h5, or_self,
      if_false, ite_false]

/-- Witness for claim C7: the unrecognized mode string `garbage` behaves
exactly like `normal` on a concrete state. -/
theorem setBlendMode_total_fallback_witness :
    setBlendMode "garbage" sampleState = setBlendMode "normal" sampleState :=
  (setBlendMode_total_fallback sampleState "garbage").2.2.2.2.2.2
    (by decide) (by decide) (by decide) (by decide) (by decide)

/-- Counterexample to claim C9: with sub-pixel rendering disabled,
`translate(-3/2, 0)` emits a context translation by `-1` (JS `~~`
truncation toward zero), not by `⌊-3/2⌋ = -2` as flooring would require. -/
theorem translate_floor_counterexample :
    sampleState.subPixel = false ∧
    translateOps (-(3 / 2)) 0 sampleState = [CanvasOp.translate (-1) 0] ∧
    translateOps (-(3 / 2)) 0 sampleState ≠
      [CanvasOp.translate ((⌊(-(3 / 2) : ℚ)⌋ : ℤ) : ℚ) ((⌊(0 : ℚ)⌋ : ℤ) : ℚ)] := by
  refine ⟨rfl, ?_, ?_⟩ <;> norm_num [translateOps, sampleState, toInt32, jsTrunc]

/-- Claim C9 (amended): when sub-pixel rendering is disabled, `translate` and
`transform` convert the translation components with JS ToInt32 (`~~` and
`| 0`), which truncates toward zero rather than flooring: it agrees with
floor on non-negative components below 2^31, and equals `-⌊-x⌋` (truncation,
one above the floor on non-integers) on negative components above -2^31;
when sub-pixel rendering is enabled the components pass through unchanged. -/
theorem grid_snapping_truncates (s : RState) (x y : ℚ) (m : Matrix2d) :
    (s.subPixel = false →
      translateOps x y s = [CanvasOp.translate (toInt32 x : ℚ) (toInt32 y : ℚ)] ∧
      transformOps m s =
        [CanvasOp.transform m.m0 m.m1 m.m3 m.m4 (toInt32 m.m6 : ℚ) (toInt32 m.m7 : ℚ)]) ∧
    (s.subPixel = true →
      translateOps x y s = [CanvasOp.translate x y] ∧
      transformOps m s = [CanvasOp.transform m.m0 m.m1 m.m3 m.m4 m.m6 m.m7]) ∧
    (0 ≤ x → x < 2 ^ 31 → toInt32 x = ⌊x⌋) ∧
    (x < 0 → -(2 ^ 31) < x → toInt32 x = -⌊-x⌋) := by
  refine ⟨fun h => ?_, fun h => ?_, fun h0 h31 => ?_, fun h0 h31 => ?_⟩
  · simp [translateOps, transformOps, h]
  · simp [translateOps, transformOps, h]
  · unfold toInt32 jsTrunc
    rw [if_pos h0]
    have h1 : 0 ≤ ⌊x⌋ := Int.floor_nonneg.mpr h0
    have h2 : ⌊x⌋ < (2 : ℤ) ^ 31 := Int.floor_lt.mpr (by exact_mod_cast h31)
    have e31 : (2 : ℤ) ^ 31 = 2147483648 := by norm_num
    have e32 : (2 : ℤ) ^ 32 = 4294967296 := by norm_num
    rw [e31, e32]
    rw [e31] at h2
    omega
  · have hTr : ¬ 0 ≤ x := not_le.mpr h0
    unfold toInt32 jsTrunc
    rw [if_neg hTr]
    have h1 : 0 ≤ ⌊-x⌋ := Int.floor_nonneg.mpr (by linarith)
    have h2 : ⌊-x⌋ < (2 : ℤ) ^ 31 := Int.floor_lt.mpr (by push_cast; linarith)
    have e31 : (2 : ℤ) ^ 31 = 2147483648 := by norm_num
    have e32 : (2 : ℤ) ^ 32 = 4294967296 := by norm_num
    rw [e31, e32]
    rw [e31] at h2
    omega

/-- a concrete matrix with fractional translation components. -/
def demoMatrix : Matrix2d :=
  ⟨1, 0, 0, 0, 1, 0, 9 / 2, -(9 / 2), 1⟩

/-- Witness for claim C9 (amended) at concrete components 5/2 and -7/2. -/
theorem grid_snapping_truncates_witness :
    translateOps (5 / 2) (-(7 / 2)) sampleState =
      [CanvasOp.translate (toInt32 (5 / 2) : ℚ) (toInt32 (-(7 / 2)) : ℚ)] ∧
    toInt32 ((5 : ℚ) / 2) = ⌊((5 : ℚ) / 2)⌋ ∧
    toInt32 (-((7 : ℚ) / 2)) = -⌊-(-((7 : ℚ) / 2))⌋ :=
  ⟨((grid_snapping_truncates sampleState (5 / 2) (-(7 / 2)) demoMatrix).1 rfl).1,
   (grid_snapping_truncates sampleState ((5 : ℚ) / 2) 0 demoMatrix).2.2.1
     (by norm_num) (by norm_num),
   (grid_snapping_truncates sampleState (-((7 : ℚ) / 2)) 0 demoMatrix).2.2.2
     (by norm_num) (by norm_num)⟩

/-- Claim C2: starting at mask nesting level 0, any non-empty sequence of
`setMask` pushes (arbitrary shapes and invert flags) followed by one
`clearMask` emits exactly one context `save` (on the first push only) and
exactly one context `restore` (from `clearMask`), so the surface save/restore
stack depth is unchanged, and the mask nesting level ends at 0. -/
theorem setMask_clearMask_net_zero (s : RState) (pushes : List (MaskShape × Bool))
    (h0 : s.maskLevel = 0) (hne : pushes ≠ []) :
    saveCount ((runMasks pushes s).2 ++ (clearMask (runMasks pushes s).1).2) = 1 ∧
    restoreCount ((runMasks pushes s).2 ++ (clearMask (runMasks pushes s).1).2) = 1 ∧
    (clearMask (runMasks pushes s).1).1.maskLevel = 0 := by
  match pushes with
  | [] => exact absurd rfl hne
  | (m, inv) :: rest =>
    have hs := saveCount_setMask m inv s
    have hr := restoreCount_setMask m inv s
    have hl := setMask_maskLevel m inv s
    rw [if_pos h0] at hs
    have hpos : 0 < (setMask m inv s).1.maskLevel := by omega
    have hrec := runMasks_pos rest (setMask m inv s).1 hpos
    have hfin : 0 < (runMasks ((m, inv) :: rest) s).1.maskLevel := by
      simpa [runMasks] using hrec.2.2
    have hclear : clearMask (runMasks ((m, inv) :: rest) s).1 =
        ({ (runMasks ((m, inv) :: rest) s).1 with maskLevel := 0 }, [CanvasOp.restore]) := by
      simp [clearMask, hfin]
    rw [hclear]
    refine ⟨?_, ?_, rfl⟩
    · simp only [runMasks, saveCount_append]
      have := hrec.1
      simp only [runMasks] at this ⊢
      simp [saveCount, hs, this]
    · simp only [runMasks, restoreCount_append]
      have := hrec.2.1
      simp only [runMasks] at this ⊢
      simp [restoreCount, hr, this]

/-- Witness for claim C2: two concrete pushes (a rectangle, then an inverted
ellipse) followed by `clearMask` on a fresh state. -/
theorem setMask_clearMask_net_zero_witness :
    saveCount ((runMasks demoPushes sampleState).2 ++
      (clearMask (runMasks demoPushes sampleState).1).2) = 1 ∧
    restoreCount ((runMasks demoPushes sampleState).2 ++
      (clearMask (runMasks demoPushes sampleState).1).2) = 1 ∧
    (clearMask (runMasks demoPushes sampleState).1).1.maskLevel = 0 :=
  setMask_clearMask_net_zero sampleState demoPushes rfl (by simp [demoPushes])

/-- Claim C3: on a shader whose uniform table is live, `setUniform` throws
the unknown-uniform error for every name absent from the introspected table
(it never silently drops the write), and succeeds for every present name. -/
theorem setUniform_unknown_raises (sh : GLShader) (us : List (String × UniValue))
    (h : sh.uniforms = some us) (name : String) (value : UniValue) :
    (List.lookup name us = none →
      setUniform sh name value = Except.error (JSError.unknownUniform name)) ∧
    (∀ v, List.lookup name us = some v →
      ∃ sh2, setUniform sh name value = Except.ok sh2) := by
  constructor
  · intro hl
    simp [setUniform, h, hl]
  · intro v hl
    exact ⟨{ sh with uniforms := some (storeUniform us name value) },
      by simp [setUniform, h, hl]⟩

/-- Witness for claim C3: on the concrete compiled shader, setting the
unintrospected name `uMissing` raises the unknown-uniform error and setting
the introspected `uColor` succeeds. -/
theorem setUniform_unknown_raises_witness :
    setUniform sampleShader "uMissing" (UniValue.num 1) =
      Except.error (JSError.unknownUniform "uMissing") ∧
    ∃ sh2, setUniform sampleShader "uColor" (UniValue.num 1) = Except.ok sh2 :=
  ⟨(setUniform_unknown_raises sampleShader
      [("uColor", UniValue.flat [1, 1, 1, 1])] rfl "uMissing" (UniValue.num 1)).1 rfl,
   (setUniform_unknown_raises sampleShader
      [("uColor", UniValue.flat [1, 1, 1, 1])] rfl "uColor" (UniValue.num 1)).2
     (UniValue.flat [1, 1, 1, 1]) rfl⟩

/-- Claim C4: on a shader whose attribute table is live, `getAttribLocation`
returns the introspected (non-negative) location for every name in the
table, returns exactly -1 for every other name, and never raises. -/
theorem getAttribLocation_total_contract (sh : GLShader) (attrs : List (String × Nat))
    (h : sh.attributes = some attrs) (name : String) :
    (∀ loc, List.lookup name attrs = some loc →
      getAttribLocation sh name = Except.ok (loc : ℤ) ∧ 0 ≤ ((loc : ℕ) : ℤ)) ∧
    (List.lookup name attrs = none → getAttribLocation sh name = Except.ok (-1)) ∧
    (∀ e, getAttribLocation sh name ≠ Except.error e) := by
  refine ⟨?_, ?_, ?_⟩
  · intro loc hl
    exact ⟨by simp [getAttribLocation, h, hl], Int.ofNat_nonneg loc⟩
  · intro hl
    simp [getAttribLocation, h, hl]
  · intro e
    cases hl : List.lookup name attrs <;> simp [getAttribLocation, h, hl]

/-- Witness for claim C4: on the concrete compiled shader, `aPos` resolves to
the non-negative location 0 and the unknown name `uNope` resolves to -1. -/
theorem getAttribLocation_total_contract_witness :
    (getAttribLocation sampleShader "aPos" = Except.ok ((0 : ℕ) : ℤ) ∧
      0 ≤ ((0 : ℕ) : ℤ)) ∧
    getAttribLocation sampleShader "uNope" = Except.ok (-1) :=
  ⟨(getAttribLocation_total_contract sampleShader [("aPos", 0)] rfl "aPos").1 0 rfl,
   (getAttribLocation_total_contract sampleShader [("aPos", 0)] rfl "uNope").2.1 rfl⟩

/-- Claim C10: after `destroy()` the attribute and uniform tables are null,
so for every name `getAttribLocation` and `setUniform` fail with the
null-access TypeError instead of returning -1 or raising the
unknown-uniform error: the pre-destroy contracts no longer hold. -/
theorem destroy_invalidates (sh : GLShader) (name : String) (value : UniValue) :
    (destroy sh).attributes = none ∧
    (destroy sh).uniforms = none ∧
    getAttribLocation (destroy sh) name = Except.error JSError.nullAccess ∧
    setUniform (destroy sh) name value = Except.error JSError.nullAccess ∧
    getAttribLocation (destroy sh) name ≠ Except.ok (-1) ∧
    (∀ n2, setUniform (destroy sh) name value ≠
      Except.error (JSError.unknownUniform n2)) := by
  simp [destroy, getAttribLocation, setUniform]

/-- Claim C5: every drawing primitive of the canvas backend emits zero
context operations when the global alpha is strictly below 1/255, and at
least one context operation when it is at or above 1/255. -/
theorem alpha_gate (s : RState) (image : Image) (args : DrawImageArgs)
    (pattern : FillStyle) (poly : Poly)
    (x y w h radius startAngle endAngle x2 y2 : ℚ) (antiClockwise fl : Bool) :
    (getGlobalAlpha s < 1 / 255 →
      drawImage image args s = [] ∧
      drawPattern pattern x y w h s = [] ∧
      strokeArc x y radius startAngle endAngle antiClockwise fl s = [] ∧
      fillArc x y radius startAngle endAngle antiClockwise s = [] ∧
      strokeEllipse x y w h fl s = [] ∧
      fillEllipse x y w h s = [] ∧
      strokeLine x y x2 y2 s = [] ∧
      fillLine x y x2 y2 s = [] ∧
      strokePolygon poly fl s = [] ∧
      fillPolygon poly s = [] ∧
      strokeRect x y w h fl s = [] ∧
      fillRect x y w h s = [] ∧
      strokeRoundRect x y w h radius fl s = [] ∧
      fillRoundRect x y w h radius s = []) ∧
    (1 / 255 ≤ getGlobalAlpha s →
      drawImage image args s ≠ [] ∧
      drawPattern pattern x y w h s ≠ [] ∧
      strokeArc x y radius startAngle endAngle antiClockwise fl s ≠ [] ∧
      fillArc x y radius startAngle endAngle antiClockwise s ≠ [] ∧
      strokeEllipse x y w h fl s ≠ [] ∧
      fillEllipse x y w h s ≠ [] ∧
      strokeLine x y x2 y2 s ≠ [] ∧
      fillLine x y x2 y2 s ≠ [] ∧
      strokePolygon poly fl s ≠ [] ∧
      fillPolygon poly s ≠ [] ∧
      strokeRect x y w h fl s ≠ [] ∧
      fillRect x y w h s ≠ [] ∧
      strokeRoundRect x y w h radius fl s ≠ [] ∧
      fillRoundRect x y w h radius s ≠ []) := by
  constructor
  · intro hlt
    have hlt2 : getGlobalAlpha s < (255 : ℚ)⁻¹ := by rwa [one_div] at hlt
    simp [drawImage, drawPattern, strokeArc, fillArc, strokeEllipse, fillEllipse,
      strokeLine, fillLine, strokePolygon, fillPolygon, strokeRect, fillRect,
      strokeRoundRect, fillRoundRect, hlt2]
  · intro hge
    have hn : ¬ getGlobalAlpha s < (255 : ℚ)⁻¹ := by
      rw [← one_div]
      exact not_lt.mpr hge
    cases args <;>
      simp [drawImage, drawPattern, strokeArc, fillArc, strokeEllipse, fillEllipse,
        strokeLine, fillLine, strokePolygon, fillPolygon, strokeRect, fillRect,
        strokeRoundRect, fillRoundRect, hn, ellipsePathOps, List.append_eq_nil,
        translateOps_ne_nil]

/-- Witness for claim C5: `strokeRect` at alpha 0 emits nothing, and the same
call at alpha 1 emits an operation (applied through the gate theorem on two
concrete states). -/
theorem alpha_gate_witness :
    strokeRect 1 2 3 4 false clearAlphaState = [] ∧
    strokeRect 1 2 3 4 false sampleState ≠ [] :=
  ⟨((alpha_gate clearAlphaState ⟨32, 32⟩ (DrawImageArgs.pos 1 2)
        (FillStyle.color "#ffffff") ⟨⟨0, 0⟩, ⟨1, 1⟩, []⟩ 1 2 3 4 5 0 1 0 0 false false).1
      (by norm_num [getGlobalAlpha, clearAlphaState, sampleState])).2.2.2.2.2.2.2.2.2.2.1,
   ((alpha_gate sampleState ⟨32, 32⟩ (DrawImageArgs.pos 1 2)
        (FillStyle.color "#ffffff") ⟨⟨0, 0⟩, ⟨1, 1⟩, []⟩ 1 2 3 4 5 0 1 0 0 false false).2
      (by norm_num [getGlobalAlpha, sampleState])).2.2.2.2.2.2.2.2.2.2.1⟩

/-- Claim C8: `clipRect` emits the clip-path construction exactly when the
requested rectangle differs from the full canvas bounds and from the cached
scissor rectangle; hence a second identical call emits nothing and leaves
the state unchanged, and two consecutive identical calls construct the clip
path (one `clip` operation) at most once. -/
theorem clipRect_memoized (s : RState) (x y w h : ℚ) :
    ((clipRect x y w h s).2 ≠ [] ↔
      ((x ≠ 0 ∨ y ≠ 0 ∨ w ≠ s.canvasWidth ∨ h ≠ s.canvasHeight) ∧
       (s.scissorX ≠ x ∨ s.scissorY ≠ y ∨ s.scissorW ≠ w ∨ s.scissorH ≠ h))) ∧
    (clipRect x y w h (clipRect x y w h s).1).2 = [] ∧
    (clipRect x y w h (clipRect x y w h s).1).1 = (clipRect x y w h s).1 ∧
    clipCount ((clipRect x y w h s).2 ++ (clipRect x y w h (clipRect x y w h s).1).2) ≤ 1 := by
  by_cases hA : (x ≠ 0 ∨ y ≠ 0 ∨ w ≠ s.canvasWidth ∨ h ≠ s.canvasHeight)
  · by_cases hB : (s.scissorX ≠ x ∨ s.scissorY ≠ y ∨ s.scissorW ≠ w ∨ s.scissorH ≠ h)
    · simp [clipRect, hA, hB, clipCount]
    · simp [clipRect, hA, hB, clipCount]
  · simp [clipRect, hA, clipCount]

end Melon
